import Mathlib

/-!
Shallow embedding of the authentication and session-token subsystem of the
job-portal backend (src/app/api/v1/auth.py, src/app/utils.py,
src/app/model/user.py, src/app/conf/smtp.py).

Time is modelled as seconds since an arbitrary epoch (a `Nat` named `now`);
`datetime.utcnow()` becomes the `now` parameter and `timedelta(minutes=m)`
becomes `m * 60` seconds.  External collaborators (bcrypt hashing via
passlib, JWT signing via jose, the Redis cache, the Mongo document store and
the SMTP sender) are modelled as executable Lean functions that expose
exactly the behaviour the endpoints rely on.
-/

namespace JobPortal

/-- User document as declared in src/app/model/user.py (class UserDocument).
The declared fields are `username`, `password`, `email`, `role`,
`hashed_password`, `is_verify`, `is_enabled`, `is_delete`, `is_mfa`, `otp`
and the two timestamps; `is_mfa` defaults to `False`. -/
structure UserDoc where
  username : String
  password : String
  email : Option String
  role : String
  hashed_password : String
  is_verify : Bool
  is_enabled : Bool
  is_delete : Bool
  is_mfa : Bool
  otp : Option String
  created_at : Nat
  updated_at : Nat
deriving DecidableEq, Repr

/-- A JWT payload as produced by `TokenManager.create_access_token`: the
`sub` claim (absent when the `data` dict carries no `"sub"` key) and the
`exp` claim in seconds. -/
structure JwtPayload where
  sub : Option String
  exp : Nat
deriving DecidableEq, Repr

/-- Model of a signed JWT (external collaborator `jose.jwt`): the payload
together with the key it was signed with.  The signature is abstracted as
the signing key itself; decoding checks that the stored key matches the
verification key. -/
structure Jwt where
  payload : JwtPayload
  signedWith : String
deriving DecidableEq, Repr

/-- Python string content of the `token` field of a stored `Token` document:
either the literal empty string (written by `logout_user` as a revocation
marker) or the serialized signed JWT. -/
inductive TokenStr where
  | empty : TokenStr
  | jwt (t : Jwt) : TokenStr
deriving DecidableEq, Repr

/-- Token document as declared in src/app/model/user.py (class Token). -/
structure TokenRec where
  username : String
  token : TokenStr
  active : Bool
  created_at : Nat
deriving DecidableEq, Repr

/-- A value stored in the Redis cache: either a plain string (the OTP codes
written by `login_user`) or a serialized JWT (the tokens written under
`user-token-` keys, which no endpoint ever reads back). -/
inductive CacheVal where
  | str (s : String) : CacheVal
  | tok (t : Jwt) : CacheVal
deriving DecidableEq, Repr

/-- One Redis entry written through `RedisClient.set_with_ttl` (setex):
a key, a value and the absolute time at which redis drops the entry. -/
structure CacheEntry where
  key : String
  value : CacheVal
  expiresAt : Nat
deriving DecidableEq, Repr

/-- One message handed to `smtp.send_otp` (external Notification Sender). -/
structure SentEmail where
  email_to : String
  subject : String
  body : String
deriving DecidableEq, Repr

/-- The observable state the auth endpoints read and write: the user
collection, the token collection (append-only log), the Redis cache and the
stream of dispatched OTP emails. -/
structure AuthState where
  users : List UserDoc
  cache : List CacheEntry
  tokenLog : List TokenRec
  sentEmails : List SentEmail
deriving DecidableEq, Repr

/-- Outcome of an endpoint: a JSON body, or an HTTPException carrying a
status code and an optional `detail` string. -/
inductive ApiResult (α : Type) where
  | ok (body : α) : ApiResult α
  | httpError (statusCode : Nat) (detail : Option String) : ApiResult α
deriving DecidableEq, Repr

/-- Request body of `POST /user` (schema `UserCreate`). -/
structure UserCreate where
  username : String
  password : String
  email : Option String
  is_mfa : Bool
deriving DecidableEq, Repr

/-- Request body of `POST /auth` (schema `UserLogin`). -/
structure UserLogin where
  username : String
  password : String
deriving DecidableEq, Repr

/-- Request body of `POST /auth/verifyotp` (schema `Verifyotp`). -/
structure Verifyotp where
  username : String
  otp : String
deriving DecidableEq, Repr

/-- Python truthiness of an optional string: `None` and `""` are falsy. -/
def pyTruthy : Option String → Bool
  | none => false
  | some s => s != ""

/-- Python truthiness of a cache value returned by redis (`if not _otp:`):
absent values never reach this test; empty bytes are falsy, and a
serialized JWT is never empty. -/
def CacheVal.pyFalsy : CacheVal → Bool
  | .str s => s == ""
  | .tok _ => false

/-- Python `==` between the bytes read from the cache (after `.decode()`)
and a submitted OTP string.  A serialized JWT under a `user-otp-` key can
never occur (the key namespaces are disjoint), and its base64 form never
equals a short numeric code. -/
def CacheVal.eqStr : CacheVal → String → Bool
  | .str s, t => s == t
  | .tok _, _ => false

/-- Signing secret from src/app/utils.py (constant SECRET_KEY). -/
def SECRET_KEY : String :=
  "09d25e094faa6ca2556c818166b7a9563b93f7099f6f0f4caa6cf63b88e8d3e7"

/-- Token lifetime constant from src/app/utils.py. -/
def ACCESS_TOKEN_EXPIRE_MINUTES : Nat := 3600

/-- Model of passlib bcrypt hashing (`pwd_context.hash`): the salted digest
is abstracted as an injectively tagged copy of the plaintext, so that
verification succeeds exactly when the plaintext matches the hashed one. -/
def get_password_hash (password : String) : String :=
  "bcrypt$" ++ password

/-- Model of `pwd_context.verify`: true exactly when the digest is the hash
of the plaintext.  Never throws on mismatch. -/
def verify_password (plain_password hashed_password : String) : Bool :=
  hashed_password == "bcrypt$" ++ plain_password

/-- Model of `jose.jwt.encode(payload, key, algorithm=HS256)`. -/
def jwtEncode (payload : JwtPayload) (key : String) : Jwt :=
  { payload := payload, signedWith := key }

/-- Model of `jose.jwt.decode(token, key, algorithms=[HS256])`: returns the
payload when the signature verifies under `key` and the `exp` claim has not
passed; any `JWTError` (bad signature, expired token) becomes `none`. -/
def jwtDecode (t : Jwt) (key : String) (now : Nat) : Option JwtPayload :=
  if t.signedWith = key ∧ now ≤ t.payload.exp then some t.payload else none

/-- `TokenManager.create_access_token` (src/app/utils.py lines 174-184):
copies the data dict (modelled by its `"sub"` entry), sets
`exp = now + expires_delta` (default 30 minutes) and signs with
`SECRET_KEY`.  `expires_delta` is in seconds. -/
def create_access_token (data_sub : Option String) (expires_delta : Option Nat)
    (now : Nat) : Jwt :=
  let expire := match expires_delta with
    | some d => now + d
    | none => now + 30 * 60
  jwtEncode { sub := data_sub, exp := expire } SECRET_KEY

/-- Result of `TokenManager.decode_access_token`: the username from the
`sub` claim, or the HTTPException it raises. -/
inductive DecodeResult where
  | ok (username : String) : DecodeResult
  | httpError (statusCode : Nat) (detail : Option String) : DecodeResult
deriving DecidableEq, Repr

/-- `TokenManager.decode_access_token` (src/app/utils.py lines 186-206):
a missing `x-auth-token` header raises 400; a token that fails `jwt.decode`
raises 401 "Invalid x_auth_token"; an absent `sub` claim raises the same
401; otherwise the username is returned. -/
def decode_access_token (x_auth_token : Option Jwt) (now : Nat) : DecodeResult :=
  match x_auth_token with
  | none => DecodeResult.httpError 400 (some "x-auth-token header missing")
  | some tok =>
    match jwtDecode tok SECRET_KEY now with
    | none => DecodeResult.httpError 401 (some "Invalid x_auth_token")
    | some payload =>
      match payload.sub with
      | none => DecodeResult.httpError 401 (some "Invalid x_auth_token")
      | some username => DecodeResult.ok username

/-- `UserDocument.find_one(UserDocument.username == username)`: first user
document whose username matches. -/
def find_one (users : List UserDoc) (username : String) : Option UserDoc :=
  users.find? (fun u => u.username == username)

/-- Beanie `Document.save` on a document obtained from `find_one`: writes
the updated document back in place of the first one with that username. -/
def save_user (users : List UserDoc) (username : String) (updated : UserDoc) :
    List UserDoc :=
  match users with
  | [] => []
  | u :: rest =>
    if u.username == username then updated :: rest
    else u :: save_user rest username updated

/-- `RedisClient.set_with_ttl(key, value, ttl)` = `setex`: the entry lives
until `now + ttl`; a later write to the same key shadows the earlier one
(lookup takes the most recent entry). -/
def set_with_ttl (cache : List CacheEntry) (key : String) (value : CacheVal)
    (ttl now : Nat) : List CacheEntry :=
  { key := key, value := value, expiresAt := now + ttl } :: cache

/-- `RedisClient.get_key(key)`: the most recently written value for the key
if it has not yet expired, else `None` (redis drops expired entries). -/
def cache_get (cache : List CacheEntry) (key : String) (now : Nat) : Option CacheVal :=
  match cache.find? (fun e => e.key == key) with
  | none => none
  | some e => if Nat.blt now e.expiresAt then some e.value else none

/-- Redis key for a cached OTP, from `login_user` / `verify_otp`:
`f'user-otp-{username}-{host}'`. -/
def otpKey (username host : String) : String :=
  "user-otp-" ++ username ++ "-" ++ host

/-- Redis key for a cached token, from `login_user` / `verify_otp`:
`f'user-token-{username}-{host}'`. -/
def tokenKey (username host : String) : String :=
  "user-token-" ++ username ++ "-" ++ host

/-- Python `==` between a `str` and a `UserDocument` instance, as performed
elementwise by the membership test
`user.username in await UserDocument.find().to_list()` at
src/app/api/v1/auth.py line 43.  A pydantic document never compares equal
to a plain string (both `__eq__` methods return NotImplemented and the
fallback identity comparison is False), so this is constantly `false`. -/
def pyStrEqUserDoc (_s : String) (_u : UserDoc) : Bool := false

/-- The duplicate-username guard of `create_user`: membership of the
username string in the list of whole user documents. -/
def username_in_all_docs (username : String) (users : List UserDoc) : Bool :=
  users.any (pyStrEqUserDoc username)

/-- The document built and inserted by the creation branch of `create_user`
(src/app/api/v1/auth.py lines 54-71).  The constructor call passes the MFA
flag under the keyword `mfa=user.is_mfa`, but `UserDocument` declares no
field named `mfa`; pydantic silently ignores unknown keyword arguments, so
the declared default `is_mfa = False` applies and the request flag is
dropped.  `password` and `hashed_password` both receive the digest, `role`
is hard-coded to `"Admin"` and `is_enabled` to `True`. -/
def userFromCreate (input : UserCreate) (now : Nat) : UserDoc :=
  let hashed := get_password_hash input.password
  { username := input.username
    password := hashed
    email := input.email
    role := "Admin"
    hashed_password := hashed
    is_verify := false
    is_enabled := true
    is_delete := false
    is_mfa := false
    otp := none
    created_at := now
    updated_at := now }

/-- `create_user` endpoint (src/app/api/v1/auth.py lines 20-74).  The guard
on line 43 tests the username string for membership in a list of documents,
which is always `False`; the login branch (lines 44-53) is therefore dead
code.  Were the guard ever true, `UserDocument[user.username]` on line 45
would raise `TypeError`, surfacing as an unhandled 500; the dead branch is
modelled accordingly.  The live branch inserts a fresh document and returns
the success message. -/
def create_user (st : AuthState) (input : UserCreate) (now : Nat) :
    ApiResult String × AuthState :=
  if username_in_all_docs input.username st.users then
    (ApiResult.httpError 500 none, st)
  else
    (ApiResult.ok "User created in successfully",
      { st with users := st.users ++ [userFromCreate input now] })

/-- Successful response body of `login_user`: either the MFA
acknowledgment (no token) or the token response. -/
inductive LoginResult where
  | otpSent (msg : String) : LoginResult
  | loggedIn (msg : String) (access_token : Jwt) (token_type : String) : LoginResult
deriving DecidableEq, Repr

/-- `login_user` endpoint (src/app/api/v1/auth.py lines 387-474).
Parameters beyond the request body: `host` is `request.client.host`,
`otpDraw` is the value drawn from `smtp.generate_otp()` (random, an
external oracle), `now` is the clock, and `sendOtpOk` tells whether the
SMTP dispatch in `smtp.send_otp` succeeds (a failure raises out of the
endpoint as an unhandled 500, after the OTP cache write has happened). -/
def login_user (st : AuthState) (input : UserLogin) (host otpDraw : String)
    (now : Nat) (sendOtpOk : Bool) : ApiResult LoginResult × AuthState :=
  match find_one st.users input.username with
  | none => (ApiResult.httpError 401 (some "Incorrect username  or password"), st)
  | some user_in_db =>
    if !(verify_password input.password user_in_db.hashed_password) then
      (ApiResult.httpError 401 (some "Incorrect username or password"), st)
    else if user_in_db.is_mfa then
      if !(pyTruthy user_in_db.email) then
        (ApiResult.httpError 400 (some
          ("Activate MFA for enhanced security features, "
            ++ "If mfa is Enabled then Please update your email "
            ++ "in user settings for OTP verification.")), st)
      else
        let st1 := { st with cache :=
          (set_with_ttl st.cache (otpKey input.username host)
            (CacheVal.str otpDraw) 120 now) }
        if sendOtpOk then
          let st2 := { st1 with sentEmails := st1.sentEmails ++
            [{ email_to := user_in_db.email.getD "",
               subject := "Your OTP Code",
               body := "Your OTP code is " ++ otpDraw }] }
          (ApiResult.ok (LoginResult.otpSent
            "OTP sent to your email and otp is expired in 2 minites"), st2)
        else
          (ApiResult.httpError 500 none, st1)
    else
      let access_token := create_access_token (some input.username)
        (some (ACCESS_TOKEN_EXPIRE_MINUTES * 60)) now
      let st1 := { st with cache :=
        (set_with_ttl st.cache (tokenKey input.username host)
          (CacheVal.tok access_token) 1800 now) }
      let st2 := { st1 with tokenLog := st1.tokenLog ++
        [{ username := input.username,
           token := TokenStr.jwt access_token,
           active := false,
           created_at := now }] }
      (ApiResult.ok (LoginResult.loggedIn "Login successful" access_token "bearer"),
        st2)

/-- Successful response body of `verify_otp`: the plain `desc` dict the
endpoint returns when the cached OTP is gone, or the token response. -/
inductive VerifyOtpResult where
  | expired (desc : String) : VerifyOtpResult
  | verified (msg : String) (access_token : Jwt) (token_type : String) : VerifyOtpResult
deriving DecidableEq, Repr

/-- `verify_otp` endpoint (src/app/api/v1/auth.py lines 481-544).  An
absent (or falsy) cache entry yields the non-error `desc` response; a
mismatch raises 401 with no detail; on match the user's `otp` field is
cleared and saved, a token is issued, cached under the `user-token-` key
for 1800s and appended to the token log.  The OTP cache entry itself is
never deleted. -/
def verify_otp (st : AuthState) (input : Verifyotp) (host : String) (now : Nat) :
    ApiResult VerifyOtpResult × AuthState :=
  match find_one st.users input.username with
  | none => (ApiResult.httpError 404 (some "User not found"), st)
  | some user_in_db =>
    match cache_get st.cache (otpKey input.username host) now with
    | none =>
      (ApiResult.ok (VerifyOtpResult.expired "OTP is Expired please reagain login"), st)
    | some v =>
      if v.pyFalsy then
        (ApiResult.ok (VerifyOtpResult.expired "OTP is Expired please reagain login"), st)
      else if !(v.eqStr input.otp) then
        (ApiResult.httpError 401 none, st)
      else
        let u1 := { user_in_db with otp := none, updated_at := now }
        let access_token := create_access_token (some input.username)
          (some (ACCESS_TOKEN_EXPIRE_MINUTES * 60)) now
        let st1 := { st with users := save_user st.users input.username u1 }
        let st2 := { st1 with cache :=
          (set_with_ttl st1.cache (tokenKey input.username host)
            (CacheVal.tok access_token) 1800 now) }
        let st3 := { st2 with tokenLog := st2.tokenLog ++
          [{ username := input.username,
             token := TokenStr.jwt access_token,
             active := false,
             created_at := now }] }
        (ApiResult.ok (VerifyOtpResult.verified
          "OTP verified and Login successfully" access_token "bearer"), st3)

/-- `logout_user` endpoint (src/app/api/v1/auth.py lines 552-607).
`x_auth_token` is the header consumed by `decode_access_token`;
`display_name` is `request.user.display_name` supplied by the
authentication middleware; `saveErr` and `insertErr` inject the exception
text when the corresponding persistence call fails (`none` = success),
matching the two try/except blocks that convert failures into 500s. -/
def logout_user (st : AuthState) (x_auth_token : Option Jwt) (display_name : String)
    (now : Nat) (saveErr insertErr : Option String) : ApiResult String × AuthState :=
  match decode_access_token x_auth_token now with
  | DecodeResult.httpError c d => (ApiResult.httpError c d, st)
  | DecodeResult.ok uname =>
    match find_one st.users uname with
    | none => (ApiResult.httpError 404 (some "User not found"), st)
    | some user_in_db =>
      let u1 := { user_in_db with is_delete := true, updated_at := now }
      match saveErr with
      | some e =>
        (ApiResult.httpError 500 (some ("Error logging out user: " ++ e)), st)
      | none =>
        let st1 := { st with users := save_user st.users uname u1 }
        match insertErr with
        | some e =>
          (ApiResult.httpError 500 (some ("Error deactivating token: " ++ e)), st1)
        | none =>
          let st2 := { st1 with tokenLog := st1.tokenLog ++
            [{ username := display_name,
               token := TokenStr.empty,
               active := false,
               created_at := now }] }
          (ApiResult.ok "User logged out successfully", st2)

/-! Concrete fixtures used by the closed witness theorems. -/

/-- A stored user without MFA, password "pw". -/
def aliceDoc : UserDoc :=
  { username := "alice", password := get_password_hash "pw",
    email := some "a@b.co", role := "Admin",
    hashed_password := get_password_hash "pw",
    is_verify := false, is_enabled := true, is_delete := false,
    is_mfa := false, otp := none, created_at := 0, updated_at := 0 }

/-- A stored user with MFA enabled and a registered email, password "pw". -/
def bobDoc : UserDoc :=
  { aliceDoc with username := "bob", is_mfa := true, email := some "b@b.co" }

/-- A store holding alice and bob, with empty cache and logs. -/
def baseState : AuthState :=
  { users := [aliceDoc, bobDoc], cache := [], tokenLog := [], sentEmails := [] }

/-- The base store after an OTP "123456" was cached for bob from host "h"
at time 0 (entry expires at 120). -/
def mfaState : AuthState :=
  { baseState with cache :=
      [{ key := otpKey "bob" "h", value := CacheVal.str "123456", expiresAt := 120 }] }

/-! Helper lemmas about the store and cache models. -/

/-- The duplicate-username guard of `create_user` is constantly false: a
string is never Python-equal to a `UserDocument`. -/
theorem username_in_all_docs_eq_false (username : String) (users : List UserDoc) :
    username_in_all_docs username users = false := by
  simp [username_in_all_docs, pyStrEqUserDoc]

/-- A user returned by `find_one` carries the username it was looked up by. -/
theorem find_one_username {users : List UserDoc} {username : String} {u : UserDoc}
    (h : find_one users username = some u) : u.username = username := by
  have h' : users.find? (fun v => v.username == username) = some u := h
  have hp := List.find?_some h'
  exact beq_iff_eq.mp hp

/-- After `save_user` writes back a document whose username matches the
lookup key, `find_one` on that key returns the written document. -/
theorem find_one_save_user (users : List UserDoc) (username : String)
    (updated : UserDoc) (hs : (find_one users username).isSome = true)
    (hn : updated.username = username) :
    find_one (save_user users username updated) username = some updated := by
  induction users with
  | nil => simp [find_one] at hs
  | cons u rest ih =>
    by_cases hu : (u.username == username) = true
    · simp [save_user, hu, find_one, List.find?_cons, hn]
    · have hu' : (u.username == username) = false := by
        simpa using hu
      have hs' : (find_one rest username).isSome = true := by
        simpa [find_one, List.find?_cons, hu'] using hs
      simpa [save_user, hu', find_one, List.find?_cons] using ih hs'

/-- A cache lookup skips a fresh entry written under a different key. -/
theorem cache_get_cons_ne (e : CacheEntry) (cache : List CacheEntry)
    (key : String) (now : Nat) (h : (e.key == key) = false) :
    cache_get (e :: cache) key now = cache_get cache key now := by
  simp [cache_get, List.find?_cons, h]

/-- The token cache key and the OTP cache key of the same user and host are
always distinct (their fixed prefixes have different lengths). -/
theorem tokenKey_bne_otpKey (u h : String) : (tokenKey u h == otpKey u h) = false := by
  refine beq_eq_false_iff_ne.mpr fun heq => ?_
  have hlen := congrArg String.length heq
  simp only [tokenKey, otpKey, String.length_append] at hlen
  have h1 : ("user-token-" : String).length = 11 := rfl
  have h2 : ("user-otp-" : String).length = 9 := rfl
  omega

/-! Claim theorems. -/

/-- Claim C1 (code bug): the spec says a `create_user` call whose username
already exists is treated as a login attempt (password verified, 401 on
mismatch, no insert, no token), and the docstring of `create_user` says the
same; but the guard on src/app/api/v1/auth.py line 43 tests the username
string for membership in a list of whole `UserDocument` objects, which is
always false.  Hence even when a user with the submitted username exists,
the endpoint never verifies the password and never raises 401: it inserts a
duplicate record and returns the success message. -/
theorem create_user_existing_username_inserts_duplicate
    (st : AuthState) (input : UserCreate) (now : Nat) (u : UserDoc)
    (hu : find_one st.users input.username = some u) :
    (create_user st input now).1 = ApiResult.ok "User created in successfully" ∧
    (create_user st input now).2.users = st.users ++ [userFromCreate input now] := by
  have hguard := username_in_all_docs_eq_false input.username st.users
  constructor <;> simp [create_user, hguard]

/-- Witness for C1: the store holds user "alice", and a `create_user` call
for "alice" with a wrong password still succeeds and inserts a duplicate. -/
theorem create_user_existing_username_inserts_duplicate_witness :
    find_one baseState.users "alice" = some aliceDoc ∧
    ((create_user baseState ⟨"alice", "wrong", none, true⟩ 7).1
        = ApiResult.ok "User created in successfully" ∧
      (create_user baseState ⟨"alice", "wrong", none, true⟩ 7).2.users
        = baseState.users ++ [userFromCreate ⟨"alice", "wrong", none, true⟩ 7]) :=
  ⟨by decide,
    create_user_existing_username_inserts_duplicate baseState
      ⟨"alice", "wrong", none, true⟩ 7 aliceDoc (by decide)⟩

/-- Claim C2: a login by an MFA user with a registered email and a correct
password answers with the "OTP sent" acknowledgment and no token; no
Session Token Record is appended and the user store is untouched; the only
writes are the OTP cache entry under the `(otp, username, host)` key with a
TTL of 120 seconds, and the dispatched notification email. -/
theorem login_mfa_sends_otp_no_token
    (st : AuthState) (input : UserLogin) (host otpDraw : String) (now : Nat)
    (u : UserDoc)
    (hu : find_one st.users input.username = some u)
    (hp : verify_password input.password u.hashed_password = true)
    (hm : u.is_mfa = true)
    (he : pyTruthy u.email = true) :
    (login_user st input host otpDraw now true).1
      = ApiResult.ok (LoginResult.otpSent
          "OTP sent to your email and otp is expired in 2 minites") ∧
    (login_user st input host otpDraw now true).2.tokenLog = st.tokenLog ∧
    (login_user st input host otpDraw now true).2.users = st.users ∧
    (login_user st input host otpDraw now true).2.cache
      = { key := otpKey input.username host,
          value := CacheVal.str otpDraw,
          expiresAt := now + 120 } :: st.cache ∧
    (login_user st input host otpDraw now true).2.sentEmails
      = st.sentEmails ++ [{ email_to := u.email.getD "",
                            subject := "Your OTP Code",
                            body := "Your OTP code is " ++ otpDraw }] := by
  refine ⟨?_, ?_, ?_, ?_, ?_⟩ <;>
    simp [login_user, hu, hp, hm, he, set_with_ttl]

/-- Witness for C2: bob is an MFA user with a registered email; logging in
with the correct password at time 3 from host "h" sends the OTP and writes
only the 120-second cache entry and the email. -/
theorem login_mfa_sends_otp_no_token_witness :
    find_one baseState.users "bob" = some bobDoc ∧
    verify_password "pw" bobDoc.hashed_password = true ∧
    bobDoc.is_mfa = true ∧
    pyTruthy bobDoc.email = true ∧
    ((login_user baseState ⟨"bob", "pw"⟩ "h" "123456" 3 true).1
        = ApiResult.ok (LoginResult.otpSent
            "OTP sent to your email and otp is expired in 2 minites") ∧
      (login_user baseState ⟨"bob", "pw"⟩ "h" "123456" 3 true).2.tokenLog
        = baseState.tokenLog ∧
      (login_user baseState ⟨"bob", "pw"⟩ "h" "123456" 3 true).2.users
        = baseState.users ∧
      (login_user baseState ⟨"bob", "pw"⟩ "h" "123456" 3 true).2.cache
        = { key := otpKey "bob" "h", value := CacheVal.str "123456",
            expiresAt := 3 + 120 } :: baseState.cache ∧
      (login_user baseState ⟨"bob", "pw"⟩ "h" "123456" 3 true).2.sentEmails
        = baseState.sentEmails ++ [{ email_to := bobDoc.email.getD "",
                                     subject := "Your OTP Code",
                                     body := "Your OTP code is " ++ "123456" }]) :=
  ⟨by decide, by decide, by decide, by decide,
    login_mfa_sends_otp_no_token baseState ⟨"bob", "pw"⟩ "h" "123456" 3 bobDoc
      (by decide) (by decide) (by decide) (by decide)⟩

/-- Claim C3 (code bug): the spec says an unknown username fails with the
same generic "incorrect username or password" message as a wrong password,
making the two cases indistinguishable; the code does return 401 (not 404)
in both cases, with a message of that generic form, but the unknown-user
detail string contains a doubled space ("username  or") while the
wrong-password one does not, so the two details differ and a caller can
tell the cases apart.  Evaluated at a concrete store holding "alice". -/
theorem login_unknown_username_message_differs :
    (login_user baseState ⟨"carol", "pw"⟩ "h" "123456" 0 true).1
      = ApiResult.httpError 401 (some "Incorrect username  or password") ∧
    (login_user baseState ⟨"alice", "bad"⟩ "h" "123456" 0 true).1
      = ApiResult.httpError 401 (some "Incorrect username or password") ∧
    "Incorrect username  or password" ≠ "Incorrect username or password" := by
  refine ⟨by decide, by decide, by decide⟩

/-- Claim C4: when the user exists but the cached OTP entry is absent (for
example its 120-second TTL has elapsed), `verify_otp` answers with the
distinguished non-error "expired" body rather than raising, and the state
is completely unchanged (in particular no token is issued or recorded). -/
theorem verify_otp_absent_cache_expired_outcome
    (st : AuthState) (input : Verifyotp) (host : String) (now : Nat) (u : UserDoc)
    (hu : find_one st.users input.username = some u)
    (hc : cache_get st.cache (otpKey input.username host) now = none) :
    verify_otp st input host now
      = (ApiResult.ok (VerifyOtpResult.expired "OTP is Expired please reagain login"),
          st) := by
  simp [verify_otp, hu, hc]

/-- Witness for C4: bob exists, the OTP entry written at time 0 with TTL
120 is gone at time 130, and verification returns the expired body with
the state unchanged. -/
theorem verify_otp_absent_cache_expired_outcome_witness :
    find_one mfaState.users "bob" = some bobDoc ∧
    cache_get mfaState.cache (otpKey "bob" "h") 130 = none ∧
    verify_otp mfaState ⟨"bob", "123456"⟩ "h" 130
      = (ApiResult.ok (VerifyOtpResult.expired "OTP is Expired please reagain login"),
          mfaState) :=
  ⟨by decide, by decide,
    verify_otp_absent_cache_expired_outcome mfaState ⟨"bob", "123456"⟩ "h" 130 bobDoc
      (by decide) (by decide)⟩

/-- Counterexample to claim C5: the claim places a missing token in the
`Unauthorized` (401) class, but `decode_access_token` raises 400 with
detail "x-auth-token header missing" when no token is supplied. -/
theorem decode_missing_token_counterexample :
    decode_access_token none 0
      = DecodeResult.httpError 400 (some "x-auth-token header missing") ∧
    (400 : Nat) ≠ 401 := by
  refine ⟨rfl, by decide⟩

/-- Claim C5 (amended): a missing token is classified as BadRequest (400,
"x-auth-token header missing"), not Unauthorized; a bad or expired token is
the one classified as Unauthorized (401, "Invalid x_auth_token"). -/
theorem decode_missing_token_bad_request (now : Nat) (t : Jwt)
    (hexp : t.payload.exp < now) :
    decode_access_token none now
      = DecodeResult.httpError 400 (some "x-auth-token header missing") ∧
    decode_access_token (some t) now
      = DecodeResult.httpError 401 (some "Invalid x_auth_token") := by
  refine ⟨rfl, ?_⟩
  have hcond : ¬ (t.signedWith = SECRET_KEY ∧ now ≤ t.payload.exp) := by
    rintro ⟨-, hle⟩
    omega
  simp [decode_access_token, jwtDecode, hcond]

/-- Witness for the amended C5: at time 1, the absent header gives 400 and
a token that expired at time 0 gives 401. -/
theorem decode_missing_token_bad_request_witness :
    (jwtEncode { sub := some "alice", exp := 0 } SECRET_KEY).payload.exp < 1 ∧
    (decode_access_token none 1
        = DecodeResult.httpError 400 (some "x-auth-token header missing") ∧
      decode_access_token (some (jwtEncode { sub := some "alice", exp := 0 } SECRET_KEY)) 1
        = DecodeResult.httpError 401 (some "Invalid x_auth_token")) :=
  ⟨by decide,
    decode_missing_token_bad_request 1
      (jwtEncode { sub := some "alice", exp := 0 } SECRET_KEY) (by decide)⟩

/-- Claim C6: the token codec round-trips: decoding the token created for a
non-empty subject with a positive ttl, before it expires, succeeds and
yields the same subject. -/
theorem token_roundtrip (subject : String) (ttl now : Nat)
    (hs : subject ≠ "") (ht : 0 < ttl) :
    decode_access_token (some (create_access_token (some subject) (some ttl) now)) now
      = DecodeResult.ok subject := by
  have hcond : (SECRET_KEY = SECRET_KEY ∧ now ≤ now + ttl) := ⟨rfl, Nat.le_add_right now ttl⟩
  simp [decode_access_token, create_access_token, jwtEncode, jwtDecode, hcond]

/-- Witness for C6: the token issued for "alice" with ttl 60 at time 0
decodes back to "alice" at time 0. -/
theorem token_roundtrip_witness :
    ("alice" : String) ≠ "" ∧ 0 < 60 ∧
    decode_access_token (some (create_access_token (some "alice") (some 60) 0)) 0
      = DecodeResult.ok "alice" :=
  ⟨by decide, by decide, token_roundtrip "alice" 60 0 (by decide) (by decide)⟩

/-- Claim C7: when the user exists and the cached OTP is present but
differs from the submitted code, `verify_otp` raises 401 with no detail
string, and the state is completely unchanged: no token is issued, no
Session Token Record is appended. -/
theorem verify_otp_mismatch_unauthorized
    (st : AuthState) (input : Verifyotp) (host : String) (now : Nat)
    (u : UserDoc) (code : String)
    (hu : find_one st.users input.username = some u)
    (hc : cache_get st.cache (otpKey input.username host) now = some (CacheVal.str code))
    (hne : code ≠ "")
    (hmm : code ≠ input.otp) :
    verify_otp st input host now = (ApiResult.httpError 401 none, st) := by
  simp [verify_otp, hu, hc, CacheVal.pyFalsy, CacheVal.eqStr, hne, hmm]

/-- Witness for C7: bob exists, the cached OTP is "123456", the submitted
code "000000" mismatches, and the call fails 401 with no detail and no
state change. -/
theorem verify_otp_mismatch_unauthorized_witness :
    find_one mfaState.users "bob" = some bobDoc ∧
    cache_get mfaState.cache (otpKey "bob" "h") 5 = some (CacheVal.str "123456") ∧
    ("123456" : String) ≠ "" ∧
    ("123456" : String) ≠ "000000" ∧
    verify_otp mfaState ⟨"bob", "000000"⟩ "h" 5 = (ApiResult.httpError 401 none, mfaState) :=
  ⟨by decide, by decide, by decide, by decide,
    verify_otp_mismatch_unauthorized mfaState ⟨"bob", "000000"⟩ "h" 5 bobDoc "123456"
      (by decide) (by decide) (by decide) (by decide)⟩

/-- Claim C8: a logout with a valid token naming an existing user marks
that user record soft-deleted and appends a Session Token Record with the
empty token string and `active = false`; if persisting the user record
fails the call surfaces 500 ("Error logging out user"), and if persisting
the token record fails it surfaces 500 ("Error deactivating token"). -/
theorem logout_marks_deleted_and_appends_revocation
    (st : AuthState) (tok : Option Jwt) (display_name : String) (now : Nat)
    (uname : String) (u : UserDoc)
    (hdec : decode_access_token tok now = DecodeResult.ok uname)
    (hu : find_one st.users uname = some u) :
    (logout_user st tok display_name now none none).1
      = ApiResult.ok "User logged out successfully" ∧
    find_one (logout_user st tok display_name now none none).2.users uname
      = some { u with is_delete := true, updated_at := now } ∧
    (logout_user st tok display_name now none none).2.tokenLog
      = st.tokenLog ++ [{ username := display_name,
                          token := TokenStr.empty,
                          active := false,
                          created_at := now }] ∧
    (∀ e, (logout_user st tok display_name now (some e) none).1
      = ApiResult.httpError 500 (some ("Error logging out user: " ++ e))) ∧
    (∀ e, (logout_user st tok display_name now none (some e)).1
      = ApiResult.httpError 500 (some ("Error deactivating token: " ++ e))) := by
  have hun : u.username = uname := find_one_username hu
  have hsome : (find_one st.users uname).isSome = true := by simp [hu]
  refine ⟨?_, ?_, ?_, ?_, ?_⟩
  · simp [logout_user, hdec, hu]
  · simp only [logout_user, hdec, hu]
    exact find_one_save_user st.users uname _ hsome hun
  · simp [logout_user, hdec, hu]
  · intro e; simp [logout_user, hdec, hu]
  · intro e; simp [logout_user, hdec, hu]

/-- Witness for C8: a valid token for "alice" logs her out at time 3,
soft-deleting the record and appending the empty revocation record; with
an injected persistence failure the call returns 500. -/
theorem logout_marks_deleted_and_appends_revocation_witness :
    decode_access_token (some (create_access_token (some "alice") (some 60) 3)) 3
      = DecodeResult.ok "alice" ∧
    find_one baseState.users "alice" = some aliceDoc ∧
    ((logout_user baseState (some (create_access_token (some "alice") (some 60) 3))
        "alice" 3 none none).1 = ApiResult.ok "User logged out successfully" ∧
      find_one (logout_user baseState
          (some (create_access_token (some "alice") (some 60) 3))
          "alice" 3 none none).2.users "alice"
        = some { aliceDoc with is_delete := true, updated_at := 3 } ∧
      (logout_user baseState (some (create_access_token (some "alice") (some 60) 3))
          "alice" 3 none none).2.tokenLog
        = baseState.tokenLog ++ [{ username := "alice",
                                   token := TokenStr.empty,
                                   active := false,
                                   created_at := 3 }] ∧
      (∀ e, (logout_user baseState (some (create_access_token (some "alice") (some 60) 3))
          "alice" 3 (some e) none).1
        = ApiResult.httpError 500 (some ("Error logging out user: " ++ e))) ∧
      (∀ e, (logout_user baseState (some (create_access_token (some "alice") (some 60) 3))
          "alice" 3 none (some e)).1
        = ApiResult.httpError 500 (some ("Error deactivating token: " ++ e)))) :=
  ⟨by decide, by decide,
    logout_marks_deleted_and_appends_revocation baseState
      (some (create_access_token (some "alice") (some 60) 3)) "alice" 3 "alice" aliceDoc
      (by decide) (by decide)⟩

/-- The token both token-issuing branches create for a user at a given
time: subject = username, lifetime = ACCESS_TOKEN_EXPIRE_MINUTES minutes. -/
def issuedToken (username : String) (now : Nat) : Jwt :=
  create_access_token (some username) (some (ACCESS_TOKEN_EXPIRE_MINUTES * 60)) now

/-- The Session Token Record both token-issuing branches append. -/
def issuedRecord (username : String) (now : Nat) : TokenRec :=
  { username := username, token := TokenStr.jwt (issuedToken username now),
    active := false, created_at := now }

/-- Claim C9: every user inserted by the creation branch of `create_user`
has `is_mfa = false`, whatever the request flag says: the constructor
passes the flag under the undeclared field name `mfa`, pydantic drops it,
and the model default applies. -/
theorem create_user_drops_mfa_flag (st : AuthState) (input : UserCreate) (now : Nat) :
    (create_user st input now).2.users = st.users ++ [userFromCreate input now] ∧
    ((create_user st input now).2.users).getLast?.map UserDoc.is_mfa = some false := by
  have hguard := username_in_all_docs_eq_false input.username st.users
  constructor
  · simp [create_user, hguard]
  · simp [create_user, hguard, List.getLast?_concat, userFromCreate]

/-- Claim C10: a successful `verify_otp` never removes the OTP cache
entry; it only clears the `otp` field of the stored user record.  Hence,
while the entry is present and unexpired, two consecutive `verify_otp`
calls with the matching code from the same host both succeed, and each
issues a token and appends a fresh Session Token Record: the OTP is
replayable within its TTL. -/
theorem verify_otp_replayable
    (st : AuthState) (input : Verifyotp) (host : String) (now : Nat) (u : UserDoc)
    (hu : find_one st.users input.username = some u)
    (hc : cache_get st.cache (otpKey input.username host) now
      = some (CacheVal.str input.otp))
    (hne : input.otp ≠ "") :
    (verify_otp st input host now).1
      = ApiResult.ok (VerifyOtpResult.verified "OTP verified and Login successfully"
          (issuedToken input.username now) "bearer") ∧
    (verify_otp st input host now).2.users
      = save_user st.users input.username { u with otp := none, updated_at := now } ∧
    cache_get (verify_otp st input host now).2.cache (otpKey input.username host) now
      = some (CacheVal.str input.otp) ∧
    (verify_otp (verify_otp st input host now).2 input host now).1
      = ApiResult.ok (VerifyOtpResult.verified "OTP verified and Login successfully"
          (issuedToken input.username now) "bearer") ∧
    (verify_otp (verify_otp st input host now).2 input host now).2.tokenLog
      = st.tokenLog ++ [issuedRecord input.username now]
          ++ [issuedRecord input.username now] := by
  have hun : u.username = input.username := find_one_username hu
  have hpf : (CacheVal.str input.otp).pyFalsy = false := by
    simp [CacheVal.pyFalsy, hne]
  have heq : CacheVal.eqStr (CacheVal.str input.otp) input.otp = true := by
    simp [CacheVal.eqStr]
  have e1 : verify_otp st input host now
      = (ApiResult.ok (VerifyOtpResult.verified "OTP verified and Login successfully"
            (create_access_token (some input.username)
              (some (ACCESS_TOKEN_EXPIRE_MINUTES * 60)) now) "bearer"),
          { users := save_user st.users input.username
              { u with otp := none, updated_at := now },
            cache := { key := tokenKey input.username host,
                       value := CacheVal.tok (create_access_token (some input.username)
                         (some (ACCESS_TOKEN_EXPIRE_MINUTES * 60)) now),
                       expiresAt := now + 1800 } :: st.cache,
            tokenLog := st.tokenLog ++
              [{ username := input.username,
                 token := TokenStr.jwt (create_access_token (some input.username)
                   (some (ACCESS_TOKEN_EXPIRE_MINUTES * 60)) now),
                 active := false,
                 created_at := now }],
            sentEmails := st.sentEmails }) := by
    simp [verify_otp, hu, hc, hpf, heq, set_with_ttl]
  have hcache2 : cache_get
      ({ key := tokenKey input.username host,
         value := CacheVal.tok (create_access_token (some input.username)
           (some (ACCESS_TOKEN_EXPIRE_MINUTES * 60)) now),
         expiresAt := now + 1800 } :: st.cache)
      (otpKey input.username host) now = some (CacheVal.str input.otp) := by
    rw [cache_get_cons_ne _ _ _ _ (tokenKey_bne_otpKey input.username host)]
    exact hc
  have hfind2 : find_one
      (save_user st.users input.username { u with otp := none, updated_at := now })
      input.username = some { u with otp := none, updated_at := now } := by
    exact find_one_save_user st.users input.username _ (by simp [hu]) hun
  refine ⟨?_, ?_, ?_, ?_, ?_⟩
  · rw [e1]
    rfl
  · rw [e1]
  · rw [e1]
    exact hcache2
  · rw [e1]
    simp [verify_otp, hfind2, hcache2, hpf, heq, issuedToken]
  · rw [e1]
    simp [verify_otp, hfind2, hcache2, hpf, heq, set_with_ttl, issuedToken, issuedRecord]

/-- Witness for C10: with bob's OTP "123456" cached and unexpired at time
5, verifying it twice succeeds both times and appends two token records. -/
theorem verify_otp_replayable_witness :
    find_one mfaState.users "bob" = some bobDoc ∧
    cache_get mfaState.cache (otpKey "bob" "h") 5 = some (CacheVal.str "123456") ∧
    ("123456" : String) ≠ "" ∧
    ((verify_otp mfaState ⟨"bob", "123456"⟩ "h" 5).1
        = ApiResult.ok (VerifyOtpResult.verified "OTP verified and Login successfully"
            (issuedToken "bob" 5) "bearer") ∧
      (verify_otp mfaState ⟨"bob", "123456"⟩ "h" 5).2.users
        = save_user mfaState.users "bob" { bobDoc with otp := none, updated_at := 5 } ∧
      cache_get (verify_otp mfaState ⟨"bob", "123456"⟩ "h" 5).2.cache
          (otpKey "bob" "h") 5
        = some (CacheVal.str "123456") ∧
      (verify_otp (verify_otp mfaState ⟨"bob", "123456"⟩ "h" 5).2
          ⟨"bob", "123456"⟩ "h" 5).1
        = ApiResult.ok (VerifyOtpResult.verified "OTP verified and Login successfully"
            (issuedToken "bob" 5) "bearer") ∧
      (verify_otp (verify_otp mfaState ⟨"bob", "123456"⟩ "h" 5).2
          ⟨"bob", "123456"⟩ "h" 5).2.tokenLog
        = mfaState.tokenLog ++ [issuedRecord "bob" 5] ++ [issuedRecord "bob" 5]) :=
  ⟨by decide, by decide, by decide,
    verify_otp_replayable mfaState ⟨"bob", "123456"⟩ "h" 5 bobDoc
      (by decide) (by decide) (by decide)⟩

end JobPortal
